import Mathlib

/-!
Shallow embedding of the detection-aggregation, alerting, and session-state
engine of the DX-TECHIES surveillance app (src/unnamed/part_000 is the main
React component `App`, src/utils/audio.ts holds the alert cooldown,
src/types.ts the data model).  Numbers that are JS `number` counts are
modelled as `Nat`; timestamps (`Date.now()`) as `Int` milliseconds;
confidence scores as `ℚ`.
-/

namespace DXTechies

/-- From src/types.ts: one detection per object per frame.  The source field
`class` is a Lean keyword, hence the guillemets. -/
structure Detection where
  bbox : ℚ × ℚ × ℚ × ℚ
  «class» : String
  score : ℚ
deriving DecidableEq

/-- From src/types.ts: `Screenshot`. -/
structure Screenshot where
  id : String
  url : String
  timestamp : String
  count : Nat
deriving DecidableEq

/-- Log severity tags, from src/types.ts `LogEntry.type`. -/
inductive LogType where
  | info | alert | success | warning | error
deriving DecidableEq

/-- From src/types.ts: `LogEntry`. -/
structure LogEntry where
  id : String
  time : String
  message : String
  type : LogType
deriving DecidableEq

/-- From src/types.ts: `Stats` (`sessionStartTime : number | null`). -/
structure Stats where
  currentCount : Nat
  peakCount : Nat
  avgCount : Nat
  totalDetections : Nat
  sessionStartTime : Option Int
deriving DecidableEq

/-- Initial stats state (src/unnamed/part_000 lines 47-53). -/
def initialStats : Stats :=
  { currentCount := 0, peakCount := 0, avgCount := 0,
    totalDetections := 0, sessionStartTime := none }

/-- The `setStats` updater inside `runDetection` (src/unnamed/part_000
lines 163-168): spreads `prev`, sets `currentCount`, takes the max for
`peakCount`, and bumps `totalDetections` by 1 exactly when `count > 0`. -/
def updateStats (prev : Stats) (count : Nat) : Stats :=
  { prev with
    currentCount := count,
    peakCount := max prev.peakCount count,
    totalDetections := prev.totalDetections + (if 0 < count then 1 else 0) }

/-- Feeding a whole sequence of frame counts through the stats updater. -/
def runStats (init : Stats) (counts : List Nat) : Stats :=
  counts.foldl updateStats init

/-- `addLog` (src/unnamed/part_000 lines 77-85):
`setLogs(prev => [entry, ...prev].slice(0, 100))` — prepend then keep the
first 100 entries (newest first). -/
def addLog (prev : List LogEntry) (entry : LogEntry) : List LogEntry :=
  (entry :: prev).take 100

/-- A chart point `{ time, count }` (src/unnamed/part_000 line 54). -/
structure TrendPoint where
  time : String
  count : Nat
deriving DecidableEq

/-- JS `Array.prototype.slice(-n)`: the last `n` elements (the whole list if
it is shorter). -/
def sliceLast (n : Nat) (l : List α) : List α :=
  l.drop (l.length - n)

/-- The `setChartData` updater inside `runDetection` (src/unnamed/part_000
lines 188-191): `prev => [...prev, point].slice(-30)`. -/
def pushChart (prev : List TrendPoint) (p : TrendPoint) : List TrendPoint :=
  sliceLast 30 (prev ++ [p])

/-- `playAlertSound` from src/utils/audio.ts, lines 2-8: the module-level
`lastAlertTime` starts at 0; the function returns early when
`now - lastAlertTime < 2000`, otherwise records `lastAlertTime = now` and
plays the two-tone signal.  Result: the new `lastAlertTime` and whether the
sound fired. -/
def playAlertSound (lastAlertTime now : Int) : Int × Bool :=
  if now - lastAlertTime < 2000 then (lastAlertTime, false)
  else (now, true)

/-- The alert call-site inside `runDetection` (src/unnamed/part_000
lines 173-176): `if (soundEnabled && count >= threshold) playAlertSound()`. -/
def soundAlertCheck (soundEnabled : Bool) (count threshold : Nat)
    (lastAlertTime now : Int) : Int × Bool :=
  if soundEnabled = true ∧ threshold ≤ count then playAlertSound lastAlertTime now
  else (lastAlertTime, false)

/-- Running the alert check over a timed sequence of frame counts, threading
`lastAlertTime`; returns, per event, whether the alert fired. -/
def runAlertTrace (soundEnabled : Bool) (threshold : Nat) :
    Int → List (Int × Nat) → List Bool
  | _, [] => []
  | lastAlertTime, (now, count) :: rest =>
      let r := soundAlertCheck soundEnabled count threshold lastAlertTime now
      r.2 :: runAlertTrace soundEnabled threshold r.1 rest

/-- `predictions.filter(p => p.class === 'person' && p.score >= confidence)`
(src/unnamed/part_000 line 159), together with `count = people.length`
(line 160). -/
def filterPeople (predictions : List Detection) (confidence : ℚ) :
    List Detection :=
  predictions.filter (fun p => p.«class» == "person" && decide (confidence ≤ p.score))

/-- The whole reactive state of the component that the claims touch:
`useState` hooks plus the refs (`frameCountRef`, `lastFpsTimeRef`,
`historyRef`) and the module-level `lastAlertTime` of src/utils/audio.ts. -/
structure AppState where
  isSystemReady : Bool
  isMonitoring : Bool
  isRecording : Bool
  stats : Stats
  chartData : List TrendPoint
  logs : List LogEntry
  screenshots : List Screenshot
  sessionDuration : String
  fps : ℤ
  frameCount : Nat
  lastFpsTime : Int
  history : List Nat
  lastAlertTime : Int
deriving DecidableEq

/-- The initial state: every `useState` initialiser of src/unnamed/part_000
lines 40-74 plus `lastAlertTime = 0` from src/utils/audio.ts line 2.
(`lastFpsTimeRef` is initialised to `Date.now()`; the model takes the start
instant as a parameter.) -/
def initialState (startTime : Int) : AppState :=
  { isSystemReady := false, isMonitoring := false, isRecording := false,
    stats := initialStats, chartData := [], logs := [], screenshots := [],
    sessionDuration := "00:00", fps := 0, frameCount := 0,
    lastFpsTime := startTime, history := [], lastAlertTime := 0 }

/-- One successful pass of the `runDetection` body (src/unnamed/part_000
lines 153-197) with `ready` standing for `videoRef.current.readyState === 4`
and no thrown error: filter the predictions, update stats, push the count to
`historyRef`, run the sound-alert check, bump the frame counter, and — when
at least 1000 ms passed since the last FPS sample — set
`fps = Math.round(frameCount * 1000 / delta)`, reset the counter and sample
time, and push `(timeLabel, count)` onto the 30-deep chart.  The early
return when `!model || !isMonitoring || !videoRef.current` is the
`s.isMonitoring` guard (model readiness folded into `ready`). -/
def runDetectionCycle (s : AppState) (ready : Bool) (predictions : List Detection)
    (confidence : ℚ) (threshold : Nat) (soundEnabled : Bool)
    (now : Int) (timeLabel : String) : AppState :=
  if s.isMonitoring = true ∧ ready = true then
    let people := filterPeople predictions confidence
    let count := people.length
    let stats2 := updateStats s.stats count
    let alert := soundAlertCheck soundEnabled count threshold s.lastAlertTime now
    let frameCount2 := s.frameCount + 1
    let delta := now - s.lastFpsTime
    if 1000 ≤ delta then
      { s with
        stats := stats2, history := s.history ++ [count],
        lastAlertTime := alert.1,
        fps := round ((frameCount2 * 1000 : ℚ) / (delta : ℚ)),
        frameCount := 0, lastFpsTime := now,
        chartData := pushChart s.chartData ⟨timeLabel, count⟩ }
    else
      { s with
        stats := stats2, history := s.history ++ [count],
        lastAlertTime := alert.1, frameCount := frameCount2 }
  else s

/-- `handleStartWebcam` (src/unnamed/part_000 lines 206-227): on success
(`ok`) it starts monitoring, stamps `sessionStartTime = Date.now()` and logs
a success entry; on a `getUserMedia` failure it only logs an error entry. -/
def handleStartWebcam (s : AppState) (ok : Bool) (now : Int)
    (okEntry errEntry : LogEntry) : AppState :=
  if ok then
    { s with
      isMonitoring := true,
      stats := { s.stats with sessionStartTime := some now },
      logs := addLog s.logs okEntry }
  else { s with logs := addLog s.logs errEntry }

/-- `handleUpload` with a file selected (src/unnamed/part_000 lines 230-247):
starts monitoring, stamps `sessionStartTime`, logs an info entry. -/
def handleUpload (s : AppState) (now : Int) (entry : LogEntry) : AppState :=
  { s with
    isMonitoring := true,
    stats := { s.stats with sessionStartTime := some now },
    logs := addLog s.logs entry }

/-- `handleStop` (src/unnamed/part_000 lines 250-264): clears the
monitoring and recording flags, resets the session-duration display, and
logs "Monitoring halted." at `warning`.  It touches neither `stats` nor
the audio module's `lastAlertTime`. -/
def handleStop (s : AppState) (entry : LogEntry) : AppState :=
  { s with
    isMonitoring := false, isRecording := false,
    sessionDuration := "00:00", logs := addLog s.logs entry }

/-- `takeScreenshot` (src/unnamed/part_000 lines 267-286): prepends a new
screenshot carrying the current `stats.currentCount` and logs `success`. -/
def takeScreenshot (s : AppState) (id url timestamp : String)
    (entry : LogEntry) : AppState :=
  { s with
    screenshots := ⟨id, url, timestamp, s.stats.currentCount⟩ :: s.screenshots,
    logs := addLog s.logs entry }

/-- `toggleRecording` (src/unnamed/part_000 lines 289-333): stops and logs
`success` when recording, otherwise starts and logs `info`. -/
def toggleRecording (s : AppState) (stopEntry startEntry : LogEntry) : AppState :=
  if s.isRecording then
    { s with isRecording := false, logs := addLog s.logs stopEntry }
  else
    { s with isRecording := true, logs := addLog s.logs startEntry }

/-- The Stop Feed button (src/unnamed/part_000 lines 438-444) carries
`disabled={!isMonitoring}`: a click invokes `handleStop` only while
monitoring; while `Idle` the disabled button runs no handler at all. -/
def stopClick (s : AppState) (entry : LogEntry) : AppState :=
  if s.isMonitoring then handleStop s entry else s

/-- The recording button (src/unnamed/part_000 lines 456-463) carries
`disabled={!isMonitoring}`: a click invokes `toggleRecording` only while
monitoring. -/
def recordClick (s : AppState) (stopEntry startEntry : LogEntry) : AppState :=
  if s.isMonitoring then toggleRecording s stopEntry startEntry else s

/-- The screenshot button (src/unnamed/part_000 lines 448-455) carries
`disabled={!isMonitoring}` as well. -/
def screenshotClick (s : AppState) (id url timestamp : String)
    (entry : LogEntry) : AppState :=
  if s.isMonitoring then takeScreenshot s id url timestamp entry else s

/-- The Start Webcam button (src/unnamed/part_000 lines 431-437) carries
`disabled={isMonitoring || !isSystemReady}`. -/
def startWebcamClick (s : AppState) (ok : Bool) (now : Int)
    (okEntry errEntry : LogEntry) : AppState :=
  if s.isMonitoring = false ∧ s.isSystemReady = true then
    handleStartWebcam s ok now okEntry errEntry
  else s

/-- The model-loading effect (src/unnamed/part_000 lines 88-102): on success
sets `isSystemReady` and logs `success`; on failure only logs `error`. -/
def modelLoaded (s : AppState) (ok : Bool) (entry : LogEntry) : AppState :=
  if ok then { s with isSystemReady := true, logs := addLog s.logs entry }
  else { s with logs := addLog s.logs entry }

/-- The session-timer effect (src/unnamed/part_000 lines 105-116): only
rewrites the `sessionDuration` display string. -/
def timerTick (s : AppState) (display : String) : AppState :=
  { s with sessionDuration := display }

/-- Every state-changing operation of the component, used to quantify over
all reachable states. -/
inductive Op where
  | detect (ready : Bool) (predictions : List Detection) (confidence : ℚ)
      (threshold : Nat) (soundEnabled : Bool) (now : Int) (timeLabel : String)
  | startWebcam (ok : Bool) (now : Int) (okEntry errEntry : LogEntry)
  | upload (now : Int) (entry : LogEntry)
  | stop (entry : LogEntry)
  | screenshot (id url timestamp : String) (entry : LogEntry)
  | record (stopEntry startEntry : LogEntry)
  | load (ok : Bool) (entry : LogEntry)
  | timer (display : String)
  | log (entry : LogEntry)

/-- Interpreting one operation on the state. -/
def applyOp (s : AppState) : Op → AppState
  | .detect ready predictions confidence threshold soundEnabled now timeLabel =>
      runDetectionCycle s ready predictions confidence threshold soundEnabled now timeLabel
  | .startWebcam ok now okEntry errEntry => startWebcamClick s ok now okEntry errEntry
  | .upload now entry => handleUpload s now entry
  | .stop entry => stopClick s entry
  | .screenshot id url timestamp entry => screenshotClick s id url timestamp entry
  | .record stopEntry startEntry => recordClick s stopEntry startEntry
  | .load ok entry => modelLoaded s ok entry
  | .timer display => timerTick s display
  | .log entry => { s with logs := addLog s.logs entry }

/-- Running a whole sequence of operations from the initial state. -/
def runOps (startTime : Int) (ops : List Op) : AppState :=
  ops.foldl applyOp (initialState startTime)

/-! ## Helper lemmas -/

theorem runStats_peakCount (counts : List Nat) (s : Stats) :
    (runStats s counts).peakCount = counts.foldl max s.peakCount := by
  induction counts generalizing s with
  | nil => rfl
  | cons c cs ih =>
      show (runStats (updateStats s c) cs).peakCount = cs.foldl max (max s.peakCount c)
      rw [ih]
      rfl

theorem runStats_totalDetections (counts : List Nat) (s : Stats) :
    (runStats s counts).totalDetections =
      s.totalDetections + counts.countP (fun k => decide (0 < k)) := by
  induction counts generalizing s with
  | nil => simp [runStats]
  | cons c cs ih =>
      show (runStats (updateStats s c) cs).totalDetections = _
      rw [ih, List.countP_cons]
      simp only [updateStats]
      by_cases h : 0 < c
      · simp [h]
        omega
      · simp [h]

theorem length_sliceLast (n : Nat) (l : List α) : (sliceLast n l).length ≤ n := by
  simp only [sliceLast, List.length_drop]
  omega

theorem sliceLast_absorb (n : Nat) (l r : List α) :
    sliceLast n (sliceLast n l ++ r) = sliceLast n (l ++ r) := by
  simp only [sliceLast, List.length_append, List.length_drop,
    List.drop_append_eq_append_drop, List.drop_drop]
  congr 2 <;> omega

theorem foldl_pushChart (ps acc : List TrendPoint) :
    ps.foldl pushChart (sliceLast 30 acc) = sliceLast 30 (acc ++ ps) := by
  induction ps generalizing acc with
  | nil => simp
  | cons p ps ih =>
      have h : pushChart (sliceLast 30 acc) p = sliceLast 30 (acc ++ [p]) := by
        simpa [pushChart] using sliceLast_absorb 30 acc [p]
      calc (p :: ps).foldl pushChart (sliceLast 30 acc)
          = ps.foldl pushChart (sliceLast 30 (acc ++ [p])) := by
            rw [List.foldl_cons, h]
        _ = sliceLast 30 ((acc ++ [p]) ++ ps) := ih (acc ++ [p])
        _ = sliceLast 30 (acc ++ p :: ps) := by simp

theorem foldl_pushChart_nil (ps : List TrendPoint) :
    ps.foldl pushChart [] = sliceLast 30 ps := by
  have h := foldl_pushChart ps []
  simpa [sliceLast] using h

/-! ## Claims -/

/-- C1: for every sequence of frame counts fed through the `setStats` updater
of `runDetection`, `peakCount` equals the running maximum of all counts
observed so far in the session (starting from the initial 0), is
monotonically non-decreasing across updates, and satisfies
`peakCount ≥ currentCount` after every update. -/
theorem stats_peak_running_max (counts : List Nat) (s : Stats) (c : Nat) :
    (runStats initialStats counts).peakCount = counts.foldl max 0
    ∧ s.peakCount ≤ (updateStats s c).peakCount
    ∧ (updateStats s c).currentCount ≤ (updateStats s c).peakCount := by
  refine ⟨?_, ?_, ?_⟩
  · simpa [initialStats] using runStats_peakCount counts initialStats
  · exact le_max_left _ _
  · exact le_max_right _ _

/-- C2: for every sequence of stats updates, `totalDetections` counts exactly
the updates whose count was strictly positive, independently of the count's
magnitude: each single update adds 1 when `count > 0` and 0 otherwise. -/
theorem totalDetections_counts_positive_frames (counts : List Nat) (s : Stats)
    (c : Nat) :
    (runStats initialStats counts).totalDetections
        = counts.countP (fun k => decide (0 < k))
    ∧ (updateStats s c).totalDetections
        = s.totalDetections + (if 0 < c then 1 else 0) := by
  refine ⟨?_, rfl⟩
  simpa [initialStats] using runStats_totalDetections counts initialStats

/-- C5: the trend buffer (`chartData`, fed through the `setChartData`
updater) never holds more than 30 entries after any sequence of appends
starting from the empty initial buffer, and after 31 sequential appends it
contains exactly the last 30 appended points (the oldest evicted). -/
theorem chart_buffer_bounded (ps qs : List TrendPoint) (h : qs.length = 31) :
    (ps.foldl pushChart []).length ≤ 30
    ∧ qs.foldl pushChart [] = qs.drop 1 := by
  constructor
  · rw [foldl_pushChart_nil]
    exact length_sliceLast 30 ps
  · rw [foldl_pushChart_nil]
    simp [sliceLast, h]

/-- A concrete run of 31 distinct trend points for the C5 witness. -/
def chartWitnessPoints : List TrendPoint :=
  (List.range 31).map fun i => ⟨"t", i⟩

theorem chart_buffer_bounded_witness :
    chartWitnessPoints.length = 31
    ∧ ((chartWitnessPoints.foldl pushChart []).length ≤ 30
       ∧ chartWitnessPoints.foldl pushChart [] = chartWitnessPoints.drop 1) :=
  ⟨by simp [chartWitnessPoints],
   chart_buffer_bounded chartWitnessPoints chartWitnessPoints
     (by simp [chartWitnessPoints])⟩

/-- C6: the log history is newest-first and capped at 100: `addLog` prepends
the new entry (keeping all prior entries while under the cap), and inserting
into a full 100-entry history drops exactly the oldest entry, leaving the
new entry in front of the first 99 old ones and total length exactly 100. -/
theorem log_history_capped (logs logs2 : List LogEntry) (e e2 : LogEntry)
    (hfull : logs.length = 100) (hunder : logs2.length < 100) :
    addLog logs2 e2 = e2 :: logs2
    ∧ addLog logs e = e :: logs.dropLast
    ∧ (addLog logs e).length = 100 := by
  refine ⟨?_, ?_, ?_⟩
  · unfold addLog
    exact List.take_of_length_le (by simp; omega)
  · unfold addLog
    rw [List.take_succ_cons, List.dropLast_eq_take, hfull]
  · simp [addLog]
    omega

/-- A throwaway log entry for concrete witnesses. -/
def sampleLog : LogEntry := ⟨"id0", "00:00:00", "msg", .info⟩

theorem log_history_capped_witness :
    (List.replicate 100 sampleLog).length = 100
    ∧ ([] : List LogEntry).length < 100
    ∧ (addLog [] sampleLog = sampleLog :: []
       ∧ addLog (List.replicate 100 sampleLog) sampleLog
           = sampleLog :: (List.replicate 100 sampleLog).dropLast
       ∧ (addLog (List.replicate 100 sampleLog) sampleLog).length = 100) :=
  ⟨by simp, by simp,
   log_history_capped (List.replicate 100 sampleLog) [] sampleLog sampleLog
     (by simp) (by simp)⟩

/-- The concrete input of the spec's Detection Filter test vector. -/
def exampleDetections : List Detection :=
  [⟨(0, 0, 0, 0), "person", 2/5⟩,
   ⟨(0, 0, 0, 0), "person", 3/5⟩,
   ⟨(0, 0, 0, 0), "car", 9/10⟩]

/-- C7: the detection filter is pure and keeps exactly the detections whose
class is `person` and whose score meets the confidence cutoff; on the spec's
test vector with cutoff 0.5 it yields exactly the score-0.6 person detection
and count 1, and the empty input yields the empty list and count 0. -/
theorem detection_filter_correct (predictions : List Detection)
    (confidence : ℚ) (d : Detection) :
    (d ∈ filterPeople predictions confidence ↔
      d ∈ predictions ∧ d.«class» = "person" ∧ confidence ≤ d.score)
    ∧ filterPeople exampleDetections (1/2) = [⟨(0, 0, 0, 0), "person", 3/5⟩]
    ∧ (filterPeople exampleDetections (1/2)).length = 1
    ∧ filterPeople [] confidence = []
    ∧ (filterPeople [] confidence).length = 0 := by
  have hex : filterPeople exampleDetections (1/2)
      = [⟨(0, 0, 0, 0), "person", 3/5⟩] := by
    norm_num [filterPeople, exampleDetections, List.filter_cons]
    decide
  refine ⟨?_, hex, by rw [hex]; rfl, rfl, rfl⟩
  simp only [filterPeople, List.mem_filter, Bool.and_eq_true, beq_iff_eq,
    decide_eq_true_eq]

/-- C3: the alert fires exactly when `soundEnabled` holds, `count` meets the
threshold, and at least 2000 ms elapsed since `lastAlertTime`; and on the
spec's trace — threshold 3, enabled, counts `[0,4,5,4,0,4]` at 500 ms
intervals from a session start `t0` (the module-level `lastAlertTime` starts
at epoch 0, so any real start instant satisfies `2000 ≤ t0`) — exactly the
second event (t0+500) and the sixth (t0+2500) fire: one alert at 500 ms and
none again before 2500 ms, and never for a count below the threshold. -/
theorem alert_cooldown_semantics (soundEnabled : Bool) (count threshold : Nat)
    (lastAlertTime now t0 : Int) (h : 2000 ≤ t0) :
    ((soundAlertCheck soundEnabled count threshold lastAlertTime now).2 = true ↔
      soundEnabled = true ∧ threshold ≤ count ∧ 2000 ≤ now - lastAlertTime)
    ∧ runAlertTrace true 3 0
        [(t0, 0), (t0 + 500, 4), (t0 + 1000, 5), (t0 + 1500, 4),
         (t0 + 2000, 0), (t0 + 2500, 4)]
      = [false, true, false, false, false, true] := by
  constructor
  · unfold soundAlertCheck playAlertSound
    by_cases h1 : soundEnabled = true ∧ threshold ≤ count
    · by_cases h2 : now - lastAlertTime < 2000
      · simp only [if_pos h1, if_pos h2]
        simp
        intros
        omega
      · simp only [if_pos h1, if_neg h2]
        simp
        exact ⟨h1.1, h1.2, by omega⟩
    · simp only [if_neg h1]
      simp
      tauto
  · have e1 : soundAlertCheck true 0 3 0 t0 = (0, false) := by
      unfold soundAlertCheck
      rw [if_neg (by simp)]
    have e2 : soundAlertCheck true 4 3 0 (t0 + 500) = (t0 + 500, true) := by
      unfold soundAlertCheck playAlertSound
      rw [if_pos (by simp), if_neg (by omega)]
    have e3 : soundAlertCheck true 5 3 (t0 + 500) (t0 + 1000) = (t0 + 500, false) := by
      unfold soundAlertCheck playAlertSound
      rw [if_pos (by simp), if_pos (by omega)]
    have e4 : soundAlertCheck true 4 3 (t0 + 500) (t0 + 1500) = (t0 + 500, false) := by
      unfold soundAlertCheck playAlertSound
      rw [if_pos (by simp), if_pos (by omega)]
    have e5 : soundAlertCheck true 0 3 (t0 + 500) (t0 + 2000) = (t0 + 500, false) := by
      unfold soundAlertCheck
      rw [if_neg (by simp)]
    have e6 : soundAlertCheck true 4 3 (t0 + 500) (t0 + 2500) = (t0 + 2500, true) := by
      unfold soundAlertCheck playAlertSound
      rw [if_pos (by simp), if_neg (by omega)]
    simp only [runAlertTrace, e1, e2, e3, e4, e5, e6]

theorem alert_cooldown_semantics_witness :
    (2000 : Int) ≤ 2000
    ∧ (((soundAlertCheck true 4 3 0 5000).2 = true ↔
          true = true ∧ 3 ≤ 4 ∧ 2000 ≤ (5000 : Int) - 0)
       ∧ runAlertTrace true 3 0
           [(2000, 0), (2000 + 500, 4), (2000 + 1000, 5), (2000 + 1500, 4),
            (2000 + 2000, 0), (2000 + 2500, 4)]
         = [false, true, false, false, false, true]) :=
  ⟨by norm_num, alert_cooldown_semantics true 4 3 0 5000 2000 (by norm_num)⟩

/-- C4: while `Idle` (`isMonitoring = false`), a stop command is a complete
no-op — the Stop Feed button is disabled, so no transition happens and no
log entry (in particular no duplicate "Monitoring halted." entry) is
appended — and a recording command is likewise rejected without any state
change (the recording button is disabled too, so no recording starts). -/
theorem idle_stop_and_record_noop (s : AppState) (e e1 e2 : LogEntry)
    (h : s.isMonitoring = false) :
    stopClick s e = s ∧ recordClick s e1 e2 = s := by
  unfold stopClick recordClick
  rw [h]
  simp

theorem idle_stop_and_record_noop_witness :
    (initialState 0).isMonitoring = false
    ∧ (stopClick (initialState 0) sampleLog = initialState 0
       ∧ recordClick (initialState 0) sampleLog sampleLog = initialState 0) :=
  ⟨rfl,
   idle_stop_and_record_noop (initialState 0) sampleLog sampleLog sampleLog rfl⟩

/-- C8: on a monitored detection cycle whose elapsed time since the last FPS
sample is ≥ 1000 ms, the reported fps is `round(frameCounter * 1000 /
elapsed)` (the frame counter having just been incremented), the counter
resets to 0, the sample time becomes `now`, and a `(time label, count)`
point is appended to the trend buffer; when elapsed < 1000 ms the fps, the
trend buffer and the sample time are unchanged and the counter only
increments. -/
theorem fps_sampling (s : AppState) (predictions : List Detection)
    (confidence : ℚ) (threshold : Nat) (soundEnabled : Bool) (now : Int)
    (lbl : String) (hmon : s.isMonitoring = true) :
    (1000 ≤ now - s.lastFpsTime →
      ((runDetectionCycle s true predictions confidence threshold soundEnabled now lbl).fps
          = round (((s.frameCount + 1 : Nat) * 1000 : ℚ) / ((now - s.lastFpsTime : Int) : ℚ))
        ∧ (runDetectionCycle s true predictions confidence threshold soundEnabled now lbl).frameCount = 0
        ∧ (runDetectionCycle s true predictions confidence threshold soundEnabled now lbl).lastFpsTime = now
        ∧ (runDetectionCycle s true predictions confidence threshold soundEnabled now lbl).chartData
            = pushChart s.chartData ⟨lbl, (filterPeople predictions confidence).length⟩))
    ∧ (now - s.lastFpsTime < 1000 →
      ((runDetectionCycle s true predictions confidence threshold soundEnabled now lbl).fps = s.fps
        ∧ (runDetectionCycle s true predictions confidence threshold soundEnabled now lbl).chartData = s.chartData
        ∧ (runDetectionCycle s true predictions confidence threshold soundEnabled now lbl).frameCount = s.frameCount + 1
        ∧ (runDetectionCycle s true predictions confidence threshold soundEnabled now lbl).lastFpsTime = s.lastFpsTime)) := by
  simp only [runDetectionCycle]
  rw [if_pos ⟨hmon, trivial⟩]
  constructor
  · intro hd
    rw [if_pos hd]
    exact ⟨rfl, rfl, rfl, rfl⟩
  · intro hd
    rw [if_neg (by omega)]
    exact ⟨rfl, rfl, rfl, rfl⟩

/-- A monitoring state at session start, for the C8 witness. -/
def fpsWitnessState : AppState := { initialState 0 with isMonitoring := true }

theorem fps_sampling_witness :
    fpsWitnessState.isMonitoring = true
    ∧ ((1000 ≤ (1500 : Int) - fpsWitnessState.lastFpsTime →
        ((runDetectionCycle fpsWitnessState true [] (1/2) 3 false 1500 "t").fps
            = round (((fpsWitnessState.frameCount + 1 : Nat) * 1000 : ℚ)
                / (((1500 : Int) - fpsWitnessState.lastFpsTime : Int) : ℚ))
          ∧ (runDetectionCycle fpsWitnessState true [] (1/2) 3 false 1500 "t").frameCount = 0
          ∧ (runDetectionCycle fpsWitnessState true [] (1/2) 3 false 1500 "t").lastFpsTime = 1500
          ∧ (runDetectionCycle fpsWitnessState true [] (1/2) 3 false 1500 "t").chartData
              = pushChart fpsWitnessState.chartData ⟨"t", (filterPeople [] (1/2)).length⟩))
      ∧ ((1500 : Int) - fpsWitnessState.lastFpsTime < 1000 →
        ((runDetectionCycle fpsWitnessState true [] (1/2) 3 false 1500 "t").fps = fpsWitnessState.fps
          ∧ (runDetectionCycle fpsWitnessState true [] (1/2) 3 false 1500 "t").chartData = fpsWitnessState.chartData
          ∧ (runDetectionCycle fpsWitnessState true [] (1/2) 3 false 1500 "t").frameCount = fpsWitnessState.frameCount + 1
          ∧ (runDetectionCycle fpsWitnessState true [] (1/2) 3 false 1500 "t").lastFpsTime = fpsWitnessState.lastFpsTime))) :=
  ⟨rfl, fps_sampling fpsWitnessState [] (1/2) 3 false 1500 "t" rfl⟩

/-- C9: `handleStop` leaves the whole `Stats` record — in particular
`currentCount`, `peakCount` and `totalDetections` — and the audio module's
cooldown timestamp `lastAlertTime` untouched, so a subsequent successful
start (which only flips `isMonitoring`, restamps `sessionStartTime` and
logs) reuses the prior peak and total values and the 2000 ms cooldown
persists across stop/start. -/
theorem stop_preserves_stats_and_cooldown (s : AppState) (e okE errE : LogEntry)
    (now : Int) :
    (handleStop s e).stats = s.stats
    ∧ (handleStop s e).lastAlertTime = s.lastAlertTime
    ∧ (handleStartWebcam (handleStop s e) true now okE errE).lastAlertTime
        = s.lastAlertTime
    ∧ (handleStartWebcam (handleStop s e) true now okE errE).stats.currentCount
        = s.stats.currentCount
    ∧ (handleStartWebcam (handleStop s e) true now okE errE).stats.peakCount
        = s.stats.peakCount
    ∧ (handleStartWebcam (handleStop s e) true now okE errE).stats.totalDetections
        = s.stats.totalDetections :=
  ⟨rfl, rfl, rfl, rfl, rfl, rfl⟩

theorem applyOp_avgCount (s : AppState) (o : Op) :
    (applyOp s o).stats.avgCount = s.stats.avgCount := by
  cases o <;>
    first
      | rfl
      | (simp only [applyOp, runDetectionCycle, startWebcamClick,
          handleStartWebcam, handleUpload, stopClick, handleStop,
          screenshotClick, takeScreenshot, recordClick, toggleRecording,
          modelLoaded, timerTick, updateStats]
         first
           | rfl
           | (split_ifs <;> rfl))

/-- C10: `avgCount` is initialised to 0 and no operation of the component —
detection cycle, start (webcam or upload), stop, snapshot, recording toggle,
model load, timer tick or logging — ever writes it, so `avgCount = 0` holds
in every reachable state. -/
theorem avgCount_constant_zero (startTime : Int) (ops : List Op) :
    (runOps startTime ops).stats.avgCount = 0 := by
  suffices hs : ∀ (ops : List Op) (s : AppState),
      (ops.foldl applyOp s).stats.avgCount = s.stats.avgCount by
    rw [runOps, hs]
    rfl
  intro ops
  induction ops with
  | nil =>
      intro s
      rfl
  | cons o os ih =>
      intro s
      rw [List.foldl_cons, ih, applyOp_avgCount]

end DXTechies
